import Mathlib

/-!
Shallow embedding of the SQLpage page renderer (src/render.rs) and of the
database result stream (src/webserver/database/mod.rs).

External collaborators (the handlebars template engine, the template store,
the HTTP response writer, the database driver) are modelled as abstract
executable functions: a compiled template segment is a function from its
inputs (data context, block-local variables, item data, row index) to an
output chunk list and the block-local variables extracted after the render,
or an error.  All renderer and page state machine logic is translated
directly from src/render.rs.
-/

/-- Model of `serde_json::Value`.  Numbers are modelled as integers (no claim
involves floating point); objects are ordered field lists, as produced by the
database row decoding. -/
inductive Json where
  | null : Json
  | bool (b : Bool) : Json
  | num (n : Int) : Json
  | str (s : String) : Json
  | arr (elems : List Json) : Json
  | obj (fields : List (String × Json)) : Json

/-- Model of `Value::as_object` (the field list of an object). -/
def Json.asObject : Json → Option (List (String × Json))
  | .obj fields => some fields
  | _ => none

/-- Model of `Value::as_str`. -/
def Json.asStr : Json → Option String
  | .str s => some s
  | _ => none

/-- Model of `Value::get(key)` on an object (none on any other kind). -/
def Json.get (j : Json) (key : String) : Option Json :=
  match j.asObject with
  | none => none
  | some fields => fields.lookup key

/-- Translation of `get_object_str` (src/render.rs): read a string field of a
JSON object. -/
def get_object_str (json : Json) (key : String) : Option String :=
  match json.get key with
  | none => none
  | some v => v.asStr

/-- One chunk written to the response writer. -/
abbrev Out := String

/-- The block-local variable bag of the template engine
(`handlebars::LocalVars`), modelled as a bag of named JSON values. -/
abbrev LocalVars := List (String × Json)

/-- Model of a compiled `SplitTemplate`.  Each segment is an abstract
executable render function returning the chunks it writes and the block-local
variables extractable from the render context afterwards (`none` when the
context no longer holds a block). -/
structure SplitTemplate where
  /-- the name carried by `list_content` (used by `SplitTemplateRenderer::name`) -/
  name : Option String
  /-- render `before_list` given the root data context; the fresh render
  context starts with an empty block-local bag -/
  before_list : Json → Except String (List Out × Option LocalVars)
  /-- render `list_content` given the root context, the re-installed outer
  block-locals, the item base value and the `row_index` local -/
  list_content : Json → LocalVars → Json → Nat → Except String (List Out × Option LocalVars)
  /-- render `after_list` given the root context and the re-installed
  block-locals -/
  after_list : Json → LocalVars → Except String (List Out)

/-- Translation of `SplitTemplateRenderer` (src/render.rs): the stateful
three-phase renderer of one `SplitTemplate` instance. -/
structure SplitTemplateRenderer where
  split_template : SplitTemplate
  local_vars : Option LocalVars
  ctx : Json
  row_index : Nat

/-- Translation of `SplitTemplateRenderer::new`. -/
def SplitTemplateRenderer.new (split_template : SplitTemplate) : SplitTemplateRenderer :=
  { split_template := split_template, local_vars := none, ctx := Json.null, row_index := 0 }

/-- Translation of `SplitTemplateRenderer::name`. -/
def SplitTemplateRenderer.name (r : SplitTemplateRenderer) : String :=
  r.split_template.name.getD ""

/-- Translation of `SplitTemplateRenderer::render_start`: install the page
data as root context, render `before_list`, capture the block-locals, reset
`row_index`.  On a render error the context is already updated but the locals
and row index are untouched. -/
def SplitTemplateRenderer.render_start (r : SplitTemplateRenderer) (data : Json) :
    Except String (List Out) × SplitTemplateRenderer :=
  let r1 := { r with ctx := data }
  match r.split_template.before_list data with
  | Except.error e => (Except.error e, r1)
  | Except.ok (out, lvs) =>
      (Except.ok out, { r1 with local_vars := lvs, row_index := 0 })

/-- Translation of `SplitTemplateRenderer::render_item`: a no-op when no
block-locals are held; otherwise take the locals, render `list_content` with
a fresh block holding the item data and the `row_index` local, re-capture the
outer locals and increment `row_index`.  On a render error the locals were
already taken. -/
def SplitTemplateRenderer.render_item (r : SplitTemplateRenderer) (data : Json) :
    Except String (List Out) × SplitTemplateRenderer :=
  match r.local_vars with
  | none => (Except.ok [], r)
  | some lvs =>
      let r1 := { r with local_vars := none }
      match r.split_template.list_content r.ctx lvs data r.row_index with
      | Except.error e => (Except.error e, r1)
      | Except.ok (out, lvs2) =>
          (Except.ok out, { r1 with local_vars := lvs2, row_index := r.row_index + 1 })

/-- Translation of `SplitTemplateRenderer::render_end`: a no-op when no
block-locals are held; otherwise take the locals, re-install them and render
`after_list`. -/
def SplitTemplateRenderer.render_end (r : SplitTemplateRenderer) :
    Except String (List Out) × SplitTemplateRenderer :=
  match r.local_vars with
  | none => (Except.ok [], r)
  | some lvs =>
      let r1 := { r with local_vars := none }
      match r.split_template.after_list r.ctx lvs with
      | Except.error e => (Except.error e, r1)
      | Except.ok out => (Except.ok out, r1)

/- ### RenderContext (body phase of the page state machine) -/

/-- Constant `DEFAULT_COMPONENT` (src/render.rs). -/
def DEFAULT_COMPONENT : String := "default"

/-- Constant `SHELL_COMPONENT` (src/render.rs). -/
def SHELL_COMPONENT : String := "shell"

/-- Constant `DYNAMIC_COMPONENT` (src/render.rs). -/
def DYNAMIC_COMPONENT : String := "dynamic"

/-- Constant `MAX_RECURSION_DEPTH` (src/render.rs). -/
def MAX_RECURSION_DEPTH : Nat := 256

/-- Translation of `RenderContext` (src/render.rs).  The app state is
represented by its two capabilities the renderer uses: the template store
(`app_state.all_templates.get_template`) and the JSON string parser used by
dynamic properties (`serde_json::from_str`); the response writer is the list
of chunks written so far. -/
structure RCState where
  store : String → Except String SplitTemplate
  parse_json : String → Except String Json
  writer : List Out
  current_component : SplitTemplateRenderer
  shell_renderer : SplitTemplateRenderer
  recursion_depth : Nat
  current_statement : Nat

/-- Translation of `RenderContext::create_renderer`: resolve a component name
through the template store and wrap it in a fresh renderer. -/
def create_renderer (store : String → Except String SplitTemplate) (component : String) :
    Except String SplitTemplateRenderer :=
  match store component with
  | Except.error e => Except.error e
  | Except.ok t => Except.ok (SplitTemplateRenderer.new t)

/-- Translation of `RenderContext::close_component`: `render_end` the current
component into the writer. -/
def close_component (st : RCState) : Except String Unit × RCState :=
  match st.current_component.render_end with
  | (Except.error e, c) => (Except.error e, { st with current_component := c })
  | (Except.ok out, c) =>
      (Except.ok (), { st with current_component := c, writer := st.writer ++ out })

/-- Translation of `RenderContext::set_current_component`: resolve a new
current component, install it and return the old one. -/
def set_current_component (st : RCState) (component : String) :
    Except String SplitTemplateRenderer × RCState :=
  match create_renderer st.store component with
  | Except.error e => (Except.error e, st)
  | Except.ok newc =>
      (Except.ok st.current_component, { st with current_component := newc })

/-- Translation of `RenderContext::open_component_with_data`: close the
current component, install a fresh renderer for `component`, `render_start`
it with `data`, and return the replaced renderer. -/
def open_component_with_data (st : RCState) (component : String) (data : Json) :
    Except String SplitTemplateRenderer × RCState :=
  match close_component st with
  | (Except.error e, st1) => (Except.error e, st1)
  | (Except.ok (), st1) =>
      match set_current_component st1 component with
      | (Except.error e, st2) => (Except.error e, st2)
      | (Except.ok old, st2) =>
          match st2.current_component.render_start data with
          | (Except.error e, c) => (Except.error e, { st2 with current_component := c })
          | (Except.ok out, c) =>
              (Except.ok old, { st2 with current_component := c, writer := st2.writer ++ out })

/-- Translation of `RenderContext::open_component`: open with null data. -/
def open_component (st : RCState) (component : String) :
    Except String SplitTemplateRenderer × RCState :=
  open_component_with_data st component Json.null

/-- Translation of `RenderContext::render_current_template_with_data`: render
one item in the current component, then give the shell a `render_item` with
null item data. -/
def render_current_template_with_data (st : RCState) (data : Json) :
    Except String Unit × RCState :=
  match st.current_component.render_item data with
  | (Except.error e, c) => (Except.error e, { st with current_component := c })
  | (Except.ok out1, c) =>
      match st.shell_renderer.render_item Json.null with
      | (Except.error e, sh) =>
          (Except.error e,
            { st with
                current_component := c, shell_renderer := sh,
                writer := st.writer ++ out1 })
      | (Except.ok out2, sh) =>
          (Except.ok (),
            { st with
                current_component := c, shell_renderer := sh,
                writer := st.writer ++ out1 ++ out2 })

/-- Translation of `RenderContext::extract_dynamic_properties`: read the
`properties` field of a dynamic row and flatten it to the list of synthetic
rows (an array is many rows, an object one row, a string is parsed first). -/
def extract_dynamic_properties (parse : String → Except String Json) (data : Json) :
    Except String (List Json) :=
  match data.get "properties" with
  | none => Except.error "Missing properties key."
  | some propertiesObj =>
      match propertiesObj with
      | Json.str s =>
          match parse s with
          | Except.error e => Except.error ("parsing json properties: " ++ e)
          | Except.ok (Json.arr values) => Except.ok values
          | Except.ok (Json.obj fields) => Except.ok [Json.obj fields]
          | Except.ok _ =>
              Except.error "Expected properties string to parse as array or object."
      | Json.obj fields => Except.ok [Json.obj fields]
      | Json.arr values => Except.ok values
      | _ => Except.error "Expected properties of type array or object."

/-- Loop body of `RenderContext::render_dynamic`: for each synthetic row in
order, increment `recursion_depth`, recurse through `handle_row`, decrement
on return even on failure, and stop at the first error. -/
def dynLoop (recurse : RCState → Json → Except String Unit × RCState) :
    RCState → List Json → Except String Unit × RCState
  | st, [] => (Except.ok (), st)
  | st, p :: rest =>
      match recurse { st with recursion_depth := st.recursion_depth + 1 } p with
      | (Except.error e, st2) =>
          (Except.error e, { st2 with recursion_depth := st2.recursion_depth - 1 })
      | (Except.ok (), st2) =>
          dynLoop recurse { st2 with recursion_depth := st2.recursion_depth - 1 } rest

/-- Translation of `RenderContext::render_dynamic`, parameterised by the
recursive `handle_row` call: guard the recursion depth, extract the synthetic
rows and feed them back one at a time. -/
def renderDynamic (recurse : RCState → Json → Except String Unit × RCState)
    (st : RCState) (data : Json) : Except String Unit × RCState :=
  if st.recursion_depth ≤ MAX_RECURSION_DEPTH then
    match extract_dynamic_properties st.parse_json data with
    | Except.error e => (Except.error e, st)
    | Except.ok props => dynLoop recurse st props
  else
    (Except.error "Maximum recursion depth exceeded in the dynamic component.", st)

/-- Error message of the `http_header`-in-body bail in
`RenderContext::handle_row`. -/
def httpHeaderAfterBodyMsg : String :=
  "The http_header component can not be used in the body of the page, only as the very first component in the page. The HTTP headers have already be sent for the current page, they cannot be changed now."

/-- Translation of `RenderContext::handle_row` (body phase).  The source
computes the current component name but binds it unused (`_current_component`)
in every match arm, so the dispatch depends only on the `component` field of
the row.  The `fuel` argument is an artifact of the shallow embedding that
bounds the `dynamic` recursion; the depth guard makes real executions need at
most 258 fuel units, and all theorems hold for every sufficient fuel. -/
def handleRow : Nat → RCState → Json → Except String Unit × RCState
  | 0, st, _ => (Except.error "model artifact: recursion fuel exhausted", st)
  | Nat.succ n, st, data =>
      match get_object_str data "component" with
      | some "dynamic" =>
          match renderDynamic (handleRow n) st data with
          | (Except.error e, st2) =>
              (Except.error ("Unable to render dynamic component with properties: " ++ e), st2)
          | (Except.ok (), st2) => (Except.ok (), st2)
      | some "http_header" => (Except.error httpHeaderAfterBodyMsg, st)
      | some c =>
          match open_component_with_data st c data with
          | (Except.error e, st2) => (Except.error e, st2)
          | (Except.ok _, st2) => (Except.ok (), st2)
      | none => render_current_template_with_data st data

/-- Translation of `RenderContext::finish_query`: increment the 1-based
statement counter used for error annotation. -/
def finish_query (st : RCState) : Except String Unit × RCState :=
  (Except.ok (), { st with current_statement := st.current_statement + 1 })

/-- Model of `anyhow::Error`: a top-level message plus the chain of causes
(`source()` links), outermost first, excluding the top-level message. -/
structure AnyErr where
  message : String
  causes : List String

/-- The JSON payload built by `RenderContext::handle_error` for the `error`
component. -/
def errorPayload (query_number : Nat) (e : AnyErr) : Json :=
  Json.obj
    [("query_number", Json.num query_number),
     ("description", Json.str e.message),
     ("backtrace", Json.arr (e.causes.map Json.str))]

/-- Translation of `RenderContext::handle_error`: close the current
component, open the `error` component saving the replaced renderer, emit one
item carrying the error payload, close the `error` component, and restore the
saved renderer as current.  An intermediate failure propagates immediately
(the restoration is then skipped, as in the source). -/
def handle_error (st : RCState) (e : AnyErr) : Except String Unit × RCState :=
  match close_component st with
  | (Except.error err, st1) => (Except.error err, st1)
  | (Except.ok (), st1) =>
      match open_component st1 "error" with
      | (Except.error err, st2) => (Except.error err, st2)
      | (Except.ok saved, st2) =>
          match render_current_template_with_data st2
              (errorPayload st2.current_statement e) with
          | (Except.error err, st3) => (Except.error err, st3)
          | (Except.ok (), st3) =>
              match close_component st3 with
              | (Except.error err, st4) => (Except.error err, st4)
              | (Except.ok (), st4) =>
                  (Except.ok (), { st4 with current_component := saved })

/- ### Entering the body: RenderContext::new -/

/-- Error message of the top-level-dynamic bail in `RenderContext::new`. -/
def dynamicTopLevelMsg : String :=
  "Dynamic components at the top level are not supported, except for setting the shell component properties"

/-- The loop of the `dynamic` arm of `RenderContext::new`: every expanded
sub-row that is component-less or `shell` overwrites the shell properties and
clears the pending initial component; any other sub-row bails. -/
def dynShellFold : Option String → Json → List Json →
    Except String (Option String × Json)
  | ic, sp, [] => Except.ok (ic, sp)
  | _, _, p :: rest =>
      match get_object_str p "component" with
      | none => dynShellFold none p rest
      | some "shell" => dynShellFold none p rest
      | some _ => Except.error dynamicTopLevelMsg

/-- Tail of `RenderContext::new` after the shell properties and the pending
initial component have been determined: `render_start` the shell, resolve the
first inner component (defaulting to `default`) and build the context. -/
def finishNew (store : String → Except String SplitTemplate)
    (parse : String → Except String Json) (writer : List Out)
    (shell0 : SplitTemplateRenderer) (initial_component : Option String)
    (shell_properties : Json) : Except String RCState :=
  match shell0.render_start shell_properties with
  | (Except.error e, _) => Except.error e
  | (Except.ok out, shell1) =>
      match create_renderer store (initial_component.getD DEFAULT_COMPONENT) with
      | Except.error e =>
          Except.error ("Unable to open the rendering context because opening the component failed: " ++ e)
      | Except.ok current =>
          Except.ok
            { store := store, parse_json := parse, writer := writer ++ out,
              current_component := current, shell_renderer := shell1,
              recursion_depth := 0, current_statement := 1 }

/-- Translation of `RenderContext::new`: classify the first body row (shell
row, top-level dynamic row, or ordinary row), determine the shell properties,
start the shell and open the first inner component. -/
def RenderContext.new (store : String → Except String SplitTemplate)
    (parse : String → Except String Json) (writer : List Out)
    (initial_row : Json) : Except String RCState :=
  match create_renderer store SHELL_COMPONENT with
  | Except.error e => Except.error ("The shell component should always exist: " ++ e)
  | Except.ok shell0 =>
      match get_object_str initial_row "component" with
      | some "shell" => finishNew store parse writer shell0 none initial_row
      | some "dynamic" =>
          match extract_dynamic_properties parse initial_row with
          | Except.error e => Except.error e
          | Except.ok props =>
              match dynShellFold (some DYNAMIC_COMPONENT) Json.null props with
              | Except.error e => Except.error e
              | Except.ok (ic, sp) => finishNew store parse writer shell0 ic sp
      | ic => finishNew store parse writer shell0 ic Json.null

/- ### HeaderContext (header phase) and PageContext -/

/-- Model of `actix_web::HttpResponseBuilder::insert_header`: insert a
header, replacing any header previously set with the same name. -/
def insert_header (headers : List (String × String)) (name value : String) :
    List (String × String) :=
  headers.filter (fun h => h.1 ≠ name) ++ [(name, value)]

/-- Translation of `HeaderContext` (src/render.rs): pending response headers,
the body writer and the app state capabilities. -/
structure HeaderCtx where
  store : String → Except String SplitTemplate
  parse_json : String → Except String Json
  writer : List Out
  response : List (String × String)

/-- The field loop of `HeaderContext::add_http_header`: every field other
than `component` must be a string and is inserted as a response header. -/
def addHeadersLoop (hc : HeaderCtx) : List (String × Json) → Except String HeaderCtx
  | [] => Except.ok hc
  | (name, value) :: rest =>
      if name = "component" then addHeadersLoop hc rest
      else
        match value.asStr with
        | none => Except.error "http header values must be strings"
        | some s =>
            addHeadersLoop { hc with response := insert_header hc.response name s } rest

/-- Translation of `HeaderContext::add_http_header`. -/
def add_http_header (hc : HeaderCtx) (data : Json) : Except String HeaderCtx :=
  match data.asObject with
  | none => Except.error "expected object"
  | some fields => addHeadersLoop hc fields

/-- Translation of `PageContext` (src/render.rs): either still in the header
phase, or in the body phase with the response builder frozen. -/
inductive PageCtx where
  | header (hc : HeaderCtx) : PageCtx
  | body (http_response : List (String × String)) (renderer : RCState) : PageCtx

/-- Translation of `HeaderContext::handle_row`: an `http_header` row feeds
the response headers and stays in the header phase; any other row starts the
body through `RenderContext::new`. -/
def HeaderCtx.handle_row (hc : HeaderCtx) (data : Json) : Except String PageCtx :=
  match get_object_str data "component" with
  | some "http_header" =>
      match add_http_header hc data with
      | Except.error e => Except.error e
      | Except.ok hc2 => Except.ok (PageCtx.header hc2)
  | _ =>
      match RenderContext.new hc.store hc.parse_json hc.writer data with
      | Except.error e => Except.error e
      | Except.ok rc => Except.ok (PageCtx.body hc.response rc)

/- ### Database result stream (src/webserver/database/mod.rs) -/

/-- Translation of `DbItem`: one item of the stream fed to the renderer. -/
inductive DbItem where
  | row (value : Json) : DbItem
  | finishedQuery : DbItem
  | error (message : String) : DbItem

/-- One element produced by `query.fetch_many` for a statement: a statement
completion result (`Either::Left`), a data row (`Either::Right`, modelled by
the JSON it decodes to through `row_to_json`), or a database error. -/
inductive SqlResult where
  | queryResult : SqlResult
  | row (data : Json) : SqlResult
  | fetchError (message : String) : SqlResult

/-- Whether a fetched element is a database error. -/
def SqlResult.isFetchError : SqlResult → Bool
  | .fetchError _ => true
  | _ => false

/-- Translation of `ParsedSQLStatement`, one entry of `sql_file.statements`.
The parser lives outside src/, so each entry carries the outcomes of its
external effects: the parameter-binding result (`bind_parameters`), the
elements its execution produces, and for variable assignments the fetch and
variable-resolution outcomes. -/
inductive ParsedSQLStatement where
  | statement (bind : Except String Unit) (results : List SqlResult) : ParsedSQLStatement
  | setVariable (bind : Except String Unit) (fetch : Except String (Option Json))
      (varsOk : Except String Unit) : ParsedSQLStatement
  | staticSimpleSelect (value : Json) : ParsedSQLStatement
  | errorStmt (message : String) : ParsedSQLStatement

/-- The database environment: the outcome of acquiring a pool connection. -/
structure DbEnv where
  acquire : Except String Unit

/-- Message prefix of the connection-acquisition failure context in
`take_connection`. -/
def acquireFailMsg (e : String) : String :=
  "Unable to acquire a database connection to execute the SQL file. All connections are busy: " ++ e

/-- Translation of `take_connection`: reuse the connection when one is
already held, otherwise acquire one from the pool, failing with a contextual
message.  The boolean records whether a connection is held. -/
def take_connection (env : DbEnv) (conn : Bool) : Except String Bool :=
  if conn then Except.ok true
  else
    match env.acquire with
    | Except.ok () => Except.ok true
    | Except.error e => Except.error (acquireFailMsg e)

/-- Translation of `parse_single_sql_result`: wrap one fetched element as a
`DbItem`. -/
def parse_single_sql_result : SqlResult → DbItem
  | .row r => DbItem.row r
  | .queryResult => DbItem.finishedQuery
  | .fetchError e => DbItem.error e

/-- The row-fetch loop of `stream_query_results`: yield every element through
`parse_single_sql_result` and stop right after the first erroneous one. -/
def fetchLoop : List SqlResult → List DbItem
  | [] => []
  | SqlResult.fetchError e :: _ => [parse_single_sql_result (SqlResult.fetchError e)]
  | r :: rest => parse_single_sql_result r :: fetchLoop rest

/-- Translation of `clone_anyhow_err`: the rebuilt error displays the same
top-level message (the context chain is reconstructed around it). -/
def clone_anyhow_err (e : String) : String := e

/-- The generator inside `stream_query_results` (the `try_stream!` block):
the items it yields in order, plus the terminating error of the generator
when a `?` aborted it. -/
def try_stream_inner (env : DbEnv) : Bool → List ParsedSQLStatement →
    List DbItem × Option String
  | _, [] => ([], none)
  | conn, ParsedSQLStatement.statement bind results :: rest =>
      (match bind with
       | Except.error e => ([], some e)
       | Except.ok () =>
           match take_connection env conn with
           | Except.error e => ([], some e)
           | Except.ok conn2 =>
               let tail := try_stream_inner env conn2 rest
               (fetchLoop results ++ tail.1, tail.2))
  | conn, ParsedSQLStatement.setVariable bind fetch varsOk :: rest =>
      (match bind with
       | Except.error e => ([], some e)
       | Except.ok () =>
           match take_connection env conn with
           | Except.error e => ([], some e)
           | Except.ok conn2 =>
               match fetch with
               | Except.error e => ([], some e)
               | Except.ok _ =>
                   match varsOk with
                   | Except.error e => ([], some e)
                   | Except.ok () => try_stream_inner env conn2 rest)
  | conn, ParsedSQLStatement.staticSimpleSelect v :: rest =>
      let tail := try_stream_inner env conn rest
      (DbItem.row v :: tail.1, tail.2)
  | conn, ParsedSQLStatement.errorStmt e :: rest =>
      let tail := try_stream_inner env conn rest
      (DbItem.error (clone_anyhow_err e) :: tail.1, tail.2)

/-- Translation of `stream_query_results`: the generator stream with its
final `map` turning a terminating `Err` into one last `DbItem::Error`. -/
def stream_query_results (env : DbEnv) (statements : List ParsedSQLStatement) :
    List DbItem :=
  match try_stream_inner env false statements with
  | (items, none) => items
  | (items, some e) => items ++ [DbItem.error e]

/- ### Concrete fixtures: a store of templates that emit one token per
segment, used to evaluate the state machine on closed inputs. -/

/-- A template whose three segments each emit one recognisable token and
whose block-local bag survives the phases unchanged. -/
def tokTemplate (name : String) : SplitTemplate :=
  { name := some name,
    before_list := fun _ => Except.ok ([name ++ ".start"], some []),
    list_content := fun _ lvs _ _ => Except.ok ([name ++ ".item"], some lvs),
    after_list := fun _ _ => Except.ok [name ++ ".end"] }

/-- A template store that resolves every component name. -/
def store0 : String → Except String SplitTemplate := fun n => Except.ok (tokTemplate n)

/-- A JSON string parser stub; no fixture row carries string properties. -/
def parse0 : String → Except String Json := fun _ => Except.error "unparsed"

/-- A token renderer already opened (block-locals held). -/
def openRenderer (name : String) : SplitTemplateRenderer :=
  { split_template := tokTemplate name, local_vars := some [],
    ctx := Json.null, row_index := 0 }

/-- A body-phase context with the `list` component open inside the shell. -/
def stList : RCState :=
  { store := store0, parse_json := parse0, writer := [],
    current_component := openRenderer "list", shell_renderer := openRenderer "shell",
    recursion_depth := 0, current_statement := 1 }

/-- The same context at the maximal recursion depth that still expands. -/
def stList256 : RCState := { stList with recursion_depth := 256 }

/-- The same context one step beyond the guard. -/
def stList257 : RCState := { stList with recursion_depth := 257 }

/-- A body row that is `dynamic` and expands to one ordinary item row. -/
def rowDynItem : Json :=
  Json.obj [("component", Json.str "dynamic"),
            ("properties", Json.arr [Json.obj [("x", Json.num 1)]])]

/-- A body row that is `dynamic` and expands to one nested `dynamic` row with
an empty expansion. -/
def rowDynNest : Json :=
  Json.obj [("component", Json.str "dynamic"),
            ("properties", Json.arr
              [Json.obj [("component", Json.str "dynamic"),
                         ("properties", Json.arr [])]])]

/-- Specification predicate for C2: a top-level dynamic sub-row that the
construction accepts (component-less or `shell`). -/
def topLevelShellRow (p : Json) : Prop :=
  get_object_str p "component" = none ∨ get_object_str p "component" = some "shell"

instance (p : Json) : Decidable (topLevelShellRow p) := by
  unfold topLevelShellRow
  infer_instance

/-- A component-less sub-row. -/
def objA : Json := Json.obj [("a", Json.num 1)]

/-- Another component-less sub-row. -/
def objB : Json := Json.obj [("b", Json.num 2)]

/-- A first body row that is `dynamic` with two component-less sub-rows. -/
def rowTwoDyn : Json :=
  Json.obj [("component", Json.str "dynamic"), ("properties", Json.arr [objA, objB])]

/-- A dynamic sub-row naming an ordinary component. -/
def objListComp : Json := Json.obj [("component", Json.str "list")]

/-- A first body row that is `dynamic` with one sub-row naming an ordinary
component. -/
def rowBadDyn : Json :=
  Json.obj [("component", Json.str "dynamic"), ("properties", Json.arr [objListComp])]

/-- Specification view for C5: the (name, value) pairs of the fields, other
than `component`, whose value is a JSON string. -/
def headerEntries (fields : List (String × Json)) : List (String × String) :=
  fields.filterMap (fun p =>
    if p.1 = "component" then none
    else (p.2.asStr).map (fun s => (p.1, s)))

/-- Specification view for C5: insert each entry in order. -/
def applyHeaderEntries (resp : List (String × String))
    (entries : List (String × String)) : List (String × String) :=
  entries.foldl (fun r q => insert_header r q.1 q.2) resp

/-- A header-phase context fixture. -/
def hcFix : HeaderCtx :=
  { store := store0, parse_json := parse0, writer := [], response := [] }

/-- An error with two chained causes. -/
def errBoom : AnyErr := { message := "boom", causes := ["cause1", "cause2"] }

/-- A database environment whose pool has a connection available. -/
def envOk : DbEnv := { acquire := Except.ok () }

/- ### Theorems -/

/-- Any `render_end` call leaves the renderer without block-locals (it takes
them before rendering, also on failure). -/
theorem render_end_clears_locals (r : SplitTemplateRenderer) :
    (r.render_end).2.local_vars = none := by
  unfold SplitTemplateRenderer.render_end
  cases h : r.local_vars with
  | none => simpa using h
  | some lvs => cases hA : r.split_template.after_list r.ctx lvs <;> simp [hA]

/-- A `render_end` on a renderer without block-locals is a no-op. -/
theorem render_end_noop_of_no_locals (r : SplitTemplateRenderer)
    (h : r.local_vars = none) : r.render_end = (Except.ok [], r) := by
  unfold SplitTemplateRenderer.render_end
  rw [h]

/-- C7: `render_end` is idempotent: after any `render_end`, a second call
emits no output and leaves the renderer unchanged, so two consecutive
`render_end` calls produce the same total output as one. -/
theorem render_end_idempotent (r : SplitTemplateRenderer) :
    (r.render_end).2.render_end = (Except.ok [], (r.render_end).2) :=
  render_end_noop_of_no_locals _ (render_end_clears_locals r)

/-- C8: a `render_item` call made while no block-locals are held (before
`render_start` has run, or after `render_end` has run) emits no output and
leaves every field of the renderer, including `row_index`, unchanged. -/
theorem render_item_noop_without_locals (r : SplitTemplateRenderer) (d : Json)
    (h : r.local_vars = none) : r.render_item d = (Except.ok [], r) := by
  unfold SplitTemplateRenderer.render_item
  rw [h]

/-- Witness for C8: a freshly constructed renderer holds no block-locals and
`render_item` on it is a no-op. -/
theorem render_item_noop_without_locals_witness :
    (SplitTemplateRenderer.new (tokTemplate "list")).local_vars = none ∧
      (SplitTemplateRenderer.new (tokTemplate "list")).render_item (Json.num 1) =
        (Except.ok [], SplitTemplateRenderer.new (tokTemplate "list")) :=
  ⟨rfl, render_item_noop_without_locals _ _ rfl⟩

/-- C6: after the body has started, a row whose `component` is `http_header`
makes `handle_row` return an error and leaves the whole body state (writer
output included) unchanged; the frozen response headers are not reachable
from the body context at all. -/
theorem handle_row_http_header_after_body (n : Nat) (st : RCState) (data : Json)
    (h : get_object_str data "component" = some "http_header") :
    handleRow (n + 1) st data = (Except.error httpHeaderAfterBodyMsg, st) := by
  simp [handleRow, h]

/-- Witness for C6: a concrete late `http_header` row is rejected with the
state untouched. -/
theorem handle_row_http_header_after_body_witness :
    get_object_str (Json.obj [("component", Json.str "http_header"),
      ("X-Late", Json.str "v")]) "component" = some "http_header" ∧
    handleRow 1 stList (Json.obj [("component", Json.str "http_header"),
      ("X-Late", Json.str "v")]) = (Except.error httpHeaderAfterBodyMsg, stList) :=
  ⟨rfl, handle_row_http_header_after_body 0 stList _ rfl⟩

/-- A body row that names the component that is currently open. -/
def rowListComp : Json := Json.obj [("component", Json.str "list"), ("x", Json.num 1)]

/-- Counterexample to C1: on a row naming the same component as the currently
open one, `handle_row` does not render one more item; it closes the current
component and opens a fresh instance of it (the source binds the current
component name unused in its dispatch). -/
theorem handle_row_same_component_reopens :
    SplitTemplateRenderer.name stList.current_component = "list" ∧
    get_object_str rowListComp "component" = some "list" ∧
    (handleRow 1 stList rowListComp).2.writer = ["list.end", "list.start"] ∧
    (render_current_template_with_data stList rowListComp).2.writer =
      ["list.item", "shell.item"] ∧
    (handleRow 1 stList rowListComp).2.writer ≠
      (render_current_template_with_data stList rowListComp).2.writer := by
  refine ⟨rfl, rfl, rfl, rfl, ?_⟩
  decide

/-- C1 (amended): in the body phase, a row with no `component` field renders
one more item in the current inner component (followed by the shell item with
null), and a row naming any component other than `dynamic` and `http_header`
(including the one currently open) closes the current inner component and
opens a new instance of the named component with the row payload. -/
theorem handle_row_body_dispatch :
    (∀ (n : Nat) (st : RCState) (data : Json),
        get_object_str data "component" = none →
        handleRow (n + 1) st data = render_current_template_with_data st data)
    ∧ (∀ (n : Nat) (st : RCState) (data : Json) (c : String),
        get_object_str data "component" = some c →
        c ≠ "dynamic" → c ≠ "http_header" →
        handleRow (n + 1) st data =
          (match open_component_with_data st c data with
           | (Except.error e, st2) => (Except.error e, st2)
           | (Except.ok _, st2) => (Except.ok (), st2))) := by
  constructor
  · intro n st data h
    simp [handleRow, h]
  · intro n st data c h hd hh
    unfold handleRow
    rw [h]
    split
    · next heq => exact absurd (Option.some.inj heq) hd
    · next heq => exact absurd (Option.some.inj heq) hh
    · next c2 heq => cases Option.some.inj heq; rfl
    · next heq => cases heq

/-- Witness for C1: a concrete component-less row goes through
`render_current_template_with_data`. -/
theorem handle_row_body_dispatch_witness :
    get_object_str (Json.obj [("x", Json.num 1)]) "component" = none ∧
    handleRow 1 stList (Json.obj [("x", Json.num 1)]) =
      render_current_template_with_data stList (Json.obj [("x", Json.num 1)]) :=
  ⟨rfl, handle_row_body_dispatch.1 0 stList _ rfl⟩

/-- Closing a component does not touch the recursion depth. -/
theorem close_component_depth (st : RCState) :
    (close_component st).2.recursion_depth = st.recursion_depth := by
  unfold close_component
  split <;> rfl

/-- Replacing the current component does not touch the recursion depth. -/
theorem set_current_component_depth (st : RCState) (c : String) :
    (set_current_component st c).2.recursion_depth = st.recursion_depth := by
  unfold set_current_component
  split <;> rfl

/-- Opening a component does not touch the recursion depth. -/
theorem open_component_with_data_depth (st : RCState) (c : String) (d : Json) :
    (open_component_with_data st c d).2.recursion_depth = st.recursion_depth := by
  unfold open_component_with_data
  rcases h1 : close_component st with ⟨res1, st1⟩
  have d1 : st1.recursion_depth = st.recursion_depth := by
    have h := close_component_depth st
    rw [h1] at h
    exact h
  cases res1 with
  | error e => simpa using d1
  | ok u =>
      cases u
      rcases h2 : set_current_component st1 c with ⟨res2, st2⟩
      have d2 : st2.recursion_depth = st1.recursion_depth := by
        have h := set_current_component_depth st1 c
        rw [h2] at h
        exact h
      cases res2 with
      | error e => simp [h2, d2, d1]
      | ok old =>
          rcases h3 : st2.current_component.render_start d with ⟨res3, c3⟩
          cases res3 <;> simp [h2, h3, d2, d1]

/-- Rendering one item (plus the shell interstitial item) does not touch the
recursion depth. -/
theorem render_current_template_with_data_depth (st : RCState) (d : Json) :
    (render_current_template_with_data st d).2.recursion_depth = st.recursion_depth := by
  unfold render_current_template_with_data
  split
  · rfl
  · split <;> rfl

/-- The expansion loop restores the depth whenever the recursive call does. -/
theorem dynLoop_depth (recurse : RCState → Json → Except String Unit × RCState)
    (hrec : ∀ s p, ((recurse s p).2).recursion_depth = s.recursion_depth) :
    ∀ (props : List Json) (st : RCState),
      ((dynLoop recurse st props).2).recursion_depth = st.recursion_depth := by
  intro props
  induction props with
  | nil => intro st; rfl
  | cons p rest ih =>
      intro st
      unfold dynLoop
      rcases hR : recurse { st with recursion_depth := st.recursion_depth + 1 } p
        with ⟨res, st2⟩
      have d2 : st2.recursion_depth = st.recursion_depth + 1 := by
        have h := hrec { st with recursion_depth := st.recursion_depth + 1 } p
        rw [hR] at h
        exact h
      cases res with
      | error e => simp [d2]
      | ok u =>
          cases u
          rw [ih]
          simp [d2]

/-- `render_dynamic` restores the depth whenever the recursive call does. -/
theorem renderDynamic_depth_of (recurse : RCState → Json → Except String Unit × RCState)
    (hrec : ∀ s p, ((recurse s p).2).recursion_depth = s.recursion_depth)
    (st : RCState) (data : Json) :
    ((renderDynamic recurse st data).2).recursion_depth = st.recursion_depth := by
  unfold renderDynamic
  split
  · cases hE : extract_dynamic_properties st.parse_json data with
    | error e => simp [hE]
    | ok props =>
        simp only [hE]
        exact dynLoop_depth recurse hrec props st
  · rfl

/-- `handle_row` never changes the recursion depth it was entered with. -/
theorem handleRow_depth : ∀ (fuel : Nat) (st : RCState) (data : Json),
    ((handleRow fuel st data).2).recursion_depth = st.recursion_depth := by
  intro fuel
  induction fuel with
  | zero => intro st data; rfl
  | succ n ih =>
      intro st data
      unfold handleRow
      split
      · rcases hR : renderDynamic (handleRow n) st data with ⟨res, st2⟩
        have d2 : st2.recursion_depth = st.recursion_depth := by
          have h := renderDynamic_depth_of (handleRow n) (fun s p => ih s p) st data
          rw [hR] at h
          exact h
        cases res with
        | error e => simpa using d2
        | ok u => cases u; simpa using d2
      · rfl
      · rename_i c2 hxa hxb heq
        rcases hO : open_component_with_data st c2 data with ⟨res, st2⟩
        have d2 : st2.recursion_depth = st.recursion_depth := by
          have h := open_component_with_data_depth st c2 data
          rw [hO] at h
          exact h
        cases res <;> simpa using d2
      · exact render_current_template_with_data_depth st data

/-- C9: every `render_dynamic` call, whether it returns success or an error,
leaves `recursion_depth` exactly as it was before the call (each synthetic
row increment is matched by a decrement even when the recursive `handle_row`
fails). -/
theorem render_dynamic_restores_depth (fuel : Nat) (st : RCState) (data : Json) :
    ((renderDynamic (handleRow fuel) st data).2).recursion_depth = st.recursion_depth :=
  renderDynamic_depth_of (handleRow fuel) (fun s p => handleRow_depth fuel s p) st data

/-- C3 (amended): `render_dynamic` fails with the max-recursion-exceeded
error, before expanding any synthetic row and leaving the state untouched,
exactly when `recursion_depth` already exceeds 256 on entry; whenever
`recursion_depth` is at most 256 the expansion proceeds (so the depth
observed inside a nested call can reach 257 before the guard stops it). -/
theorem render_dynamic_depth_guard :
    (∀ (fuel : Nat) (st : RCState) (data : Json),
        MAX_RECURSION_DEPTH < st.recursion_depth →
        renderDynamic (handleRow fuel) st data =
          (Except.error "Maximum recursion depth exceeded in the dynamic component.", st))
    ∧ (∀ (fuel : Nat) (st : RCState) (data : Json),
        st.recursion_depth ≤ MAX_RECURSION_DEPTH →
        renderDynamic (handleRow fuel) st data =
          (match extract_dynamic_properties st.parse_json data with
           | Except.error e => (Except.error e, st)
           | Except.ok props => dynLoop (handleRow fuel) st props)) := by
  constructor
  · intro fuel st data h
    unfold renderDynamic
    rw [if_neg (Nat.not_le.mpr h)]
  · intro fuel st data h
    unfold renderDynamic
    rw [if_pos h]

/-- Witness for C3: at depth 257 a concrete `render_dynamic` call fails with
the guard error and an unchanged state. -/
theorem render_dynamic_depth_guard_witness :
    MAX_RECURSION_DEPTH < stList257.recursion_depth ∧
    renderDynamic (handleRow 1) stList257 rowDynItem =
      (Except.error "Maximum recursion depth exceeded in the dynamic component.",
        stList257) :=
  ⟨by decide, render_dynamic_depth_guard.1 1 stList257 rowDynItem (by decide)⟩

/-- Counterexample to C3: at entry depth 256 the expansion of one synthetic
row would raise the depth to 257 > 256, yet `render_dynamic` does not fail
before expanding; it expands and renders the row.  Moreover the depth does
exceed 256 inside `render_dynamic`: the same call on a nested dynamic row
(whose own expansion is empty) fails, because the nested `render_dynamic`
runs at depth 257 and its guard fires, while the identical call from depth 0
succeeds. -/
theorem render_dynamic_guard_off_by_one :
    stList256.recursion_depth = MAX_RECURSION_DEPTH ∧
    (renderDynamic (handleRow 1) stList256 rowDynItem).1 = Except.ok () ∧
    (renderDynamic (handleRow 1) stList256 rowDynItem).2.writer =
      ["list.item", "shell.item"] ∧
    (renderDynamic (handleRow 2) stList256 rowDynNest).1 =
      Except.error ("Unable to render dynamic component with properties: " ++
        "Maximum recursion depth exceeded in the dynamic component.") ∧
    (renderDynamic (handleRow 2) stList rowDynNest).1 = Except.ok () :=
  ⟨rfl, rfl, rfl, rfl, rfl⟩

/-- When every expanded sub-row is component-less or `shell`, the top-level
dynamic loop accepts and the last sub-row payload wins (the accumulator when
there is none). -/
theorem dynShellFold_ok (props : List Json)
    (h : ∀ p ∈ props, topLevelShellRow p) :
    ∀ (ic : Option String) (sp : Json),
      dynShellFold ic sp props =
        Except.ok (match props.getLast? with
                   | none => (ic, sp)
                   | some plast => (none, plast)) := by
  induction props with
  | nil => intro ic sp; rfl
  | cons p rest ih =>
      intro ic sp
      have hp : topLevelShellRow p := h p (List.mem_cons_self p rest)
      have hrest : ∀ q ∈ rest, topLevelShellRow q :=
        fun q hq => h q (List.mem_cons_of_mem p hq)
      have step : dynShellFold ic sp (p :: rest) = dynShellFold none p rest := by
        rcases hp with hp | hp <;> simp only [dynShellFold, hp]
      rw [step, ih hrest none p]
      cases rest with
      | nil => rfl
      | cons q rest2 =>
          rw [List.getLast?_cons_cons]
          cases hgl : (q :: rest2).getLast? with
          | none =>
              exact absurd (List.getLast?_eq_none_iff.mp hgl) (List.cons_ne_nil q rest2)
          | some l => rfl

/-- When some expanded sub-row names a component other than `shell`, the
top-level dynamic loop bails with the fixed error. -/
theorem dynShellFold_err (props : List Json)
    (h : ¬ ∀ p ∈ props, topLevelShellRow p) :
    ∀ (ic : Option String) (sp : Json),
      dynShellFold ic sp props = Except.error dynamicTopLevelMsg := by
  induction props with
  | nil => exact absurd (by intro p hp; cases hp) h
  | cons p rest ih =>
      intro ic sp
      by_cases hp : topLevelShellRow p
      · have hrest : ¬ ∀ q ∈ rest, topLevelShellRow q := by
          intro hall
          exact h (by
            intro q hq
            rcases List.mem_cons.mp hq with rfl | hq2
            · exact hp
            · exact hall q hq2)
        have step : dynShellFold ic sp (p :: rest) = dynShellFold none p rest := by
          rcases hp with hp | hp <;> simp only [dynShellFold, hp]
        rw [step]
        exact ih hrest none p
      · unfold dynShellFold
        split
        · next heq => exact absurd (Or.inl heq) hp
        · next heq => exact absurd (Or.inr heq) hp
        · rfl

/-- C2 (amended): when the first body row is `dynamic` and its expansion
yields at least one sub-row, `RenderContext::new` accepts the expanded
`properties` whenever every sub-row is `shell` or component-less — not only
when there is exactly one — and the payload of the last such sub-row becomes
the shell properties; a sub-row naming any other component makes the
construction fail with the top-level-dynamic error. -/
theorem render_context_new_dynamic_toplevel
    (store : String → Except String SplitTemplate)
    (parse : String → Except String Json) (writer : List Out)
    (row : Json) (props : List Json) (shell0 : SplitTemplateRenderer)
    (hdyn : get_object_str row "component" = some "dynamic")
    (hshell : create_renderer store SHELL_COMPONENT = Except.ok shell0)
    (hex : extract_dynamic_properties parse row = Except.ok props) :
    ((¬ ∀ p ∈ props, topLevelShellRow p) →
        RenderContext.new store parse writer row = Except.error dynamicTopLevelMsg)
    ∧ (∀ plast, (∀ p ∈ props, topLevelShellRow p) → props.getLast? = some plast →
        RenderContext.new store parse writer row =
          finishNew store parse writer shell0 none plast) := by
  constructor
  · intro hbad
    unfold RenderContext.new
    rw [hshell]
    simp only [hdyn, hex, dynShellFold_err props hbad]
  · intro plast hgood hlast
    unfold RenderContext.new
    rw [hshell]
    simp only [hdyn, hex, dynShellFold_ok props hgood, hlast]

/-- Witness for C2: a concrete dynamic first row whose single sub-row names
the `list` component makes the construction fail. -/
theorem render_context_new_dynamic_toplevel_witness :
    get_object_str rowBadDyn "component" = some "dynamic" ∧
    create_renderer store0 SHELL_COMPONENT =
      Except.ok (SplitTemplateRenderer.new (tokTemplate "shell")) ∧
    extract_dynamic_properties parse0 rowBadDyn = Except.ok [objListComp] ∧
    RenderContext.new store0 parse0 [] rowBadDyn = Except.error dynamicTopLevelMsg :=
  ⟨rfl, rfl, rfl,
    (render_context_new_dynamic_toplevel store0 parse0 [] rowBadDyn [objListComp]
      (SplitTemplateRenderer.new (tokTemplate "shell")) rfl rfl rfl).1 (by decide)⟩

/-- Counterexample to C2: a dynamic first row with two component-less
sub-rows is accepted (the claim requires it to fail), the second payload
becoming the shell properties. -/
theorem render_context_new_two_dynamic_subrows_accepted :
    RenderContext.new store0 parse0 [] rowTwoDyn =
      Except.ok
        { store := store0, parse_json := parse0, writer := ["shell.start"],
          current_component := SplitTemplateRenderer.new (tokTemplate "default"),
          shell_renderer :=
            { split_template := tokTemplate "shell", local_vars := some [],
              ctx := objB, row_index := 0 },
          recursion_depth := 0, current_statement := 1 } :=
  rfl

/-- C4: in the body phase, `handle_error` closes the current inner component,
opens the `error` component, renders exactly one item whose payload is
`query_number = current_statement`, `description` = the top-level message and
`backtrace` = the chain of causes outermost first excluding the top-level
message (followed by the shell interstitial item), closes the `error`
component, and restores the previously current renderer (now closed) into the
current slot. -/
theorem handle_error_renders_error_item
    (st : RCState) (e : AnyErr) (outC : List Out) (curClosed : SplitTemplateRenderer)
    (tErr : SplitTemplate) (outS outI outSh outE : List Out)
    (lvs0 lvs1 : LocalVars) (shell1 : SplitTemplateRenderer)
    (h1 : st.current_component.render_end = (Except.ok outC, curClosed))
    (h2 : st.store "error" = Except.ok tErr)
    (h3 : tErr.before_list Json.null = Except.ok (outS, some lvs0))
    (h4 : tErr.list_content Json.null lvs0 (errorPayload st.current_statement e) 0 =
        Except.ok (outI, some lvs1))
    (h5 : st.shell_renderer.render_item Json.null = (Except.ok outSh, shell1))
    (h6 : tErr.after_list Json.null lvs1 = Except.ok outE) :
    handle_error st e =
      (Except.ok (),
        { st with
            current_component := curClosed, shell_renderer := shell1,
            writer := st.writer ++ outC ++ outS ++ outI ++ outSh ++ outE }) := by
  have hclosed : curClosed.local_vars = none := by
    have h := render_end_clears_locals st.current_component
    rw [h1] at h
    exact h
  have hcc2 : curClosed.render_end = (Except.ok [], curClosed) :=
    render_end_noop_of_no_locals curClosed hclosed
  have hstart : (SplitTemplateRenderer.new tErr).render_start Json.null =
      (Except.ok outS, ⟨tErr, some lvs0, Json.null, 0⟩) := by
    simp [SplitTemplateRenderer.render_start, SplitTemplateRenderer.new, h3]
  have hitem : SplitTemplateRenderer.render_item ⟨tErr, some lvs0, Json.null, 0⟩
      (errorPayload st.current_statement e) = (Except.ok outI, ⟨tErr, some lvs1, Json.null, 1⟩) := by
    simp [SplitTemplateRenderer.render_item, h4]
  have hend2 : SplitTemplateRenderer.render_end ⟨tErr, some lvs1, Json.null, 1⟩ =
      (Except.ok outE, ⟨tErr, none, Json.null, 1⟩) := by
    simp [SplitTemplateRenderer.render_end, h6]
  simp only [handle_error, close_component, open_component, open_component_with_data,
    set_current_component, create_renderer, render_current_template_with_data,
    h1, hcc2, h2, hstart, hitem, hend2, h5, List.append_nil, List.append_assoc]

/-- Witness for C4: a concrete error rendered mid-body emits close, error
open, error item, shell interstitial and error close, and restores the closed
`list` renderer. -/
theorem handle_error_renders_error_item_witness :
    handle_error stList errBoom =
      (Except.ok (),
        { stList with
            current_component := ⟨tokTemplate "list", none, Json.null, 0⟩,
            shell_renderer := ⟨tokTemplate "shell", some [], Json.null, 1⟩,
            writer := ["list.end", "error.start", "error.item", "shell.item",
              "error.end"] }) :=
  handle_error_renders_error_item stList errBoom ["list.end"]
    ⟨tokTemplate "list", none, Json.null, 0⟩ (tokTemplate "error") ["error.start"]
    ["error.item"] ["shell.item"] ["error.end"] [] []
    ⟨tokTemplate "shell", some [], Json.null, 1⟩ rfl rfl rfl rfl rfl rfl

/-- When every field other than `component` is a string, the header loop
succeeds and inserts exactly the string entries, in field order. -/
theorem addHeadersLoop_ok (fields : List (String × Json))
    (h : ∀ p ∈ fields, p.1 ≠ "component" → (p.2.asStr).isSome = true) :
    ∀ (hc : HeaderCtx),
      addHeadersLoop hc fields =
        Except.ok { hc with
                      response := applyHeaderEntries hc.response (headerEntries fields) } := by
  induction fields with
  | nil => intro hc; rfl
  | cons p rest ih =>
      intro hc
      obtain ⟨name, v⟩ := p
      have hrest : ∀ q ∈ rest, q.1 ≠ "component" → (q.2.asStr).isSome = true :=
        fun q hq => h q (List.mem_cons_of_mem _ hq)
      by_cases hcmp : name = "component"
      · simp only [addHeadersLoop, headerEntries, List.filterMap_cons, hcmp, if_pos rfl,
          ite_true]
        exact ih hrest hc
      · have hv : (v.asStr).isSome = true :=
          h (name, v) (List.mem_cons_self _ _) hcmp
        obtain ⟨s, hs⟩ := Option.isSome_iff_exists.mp hv
        simp only [addHeadersLoop, headerEntries, List.filterMap_cons, if_neg hcmp, hs,
          Option.map_some]
        rw [ih hrest]
        rfl

/-- When some field other than `component` is not a string, the header loop
fails with the invalid-header-value error. -/
theorem addHeadersLoop_err (fields : List (String × Json))
    (h : ∃ p ∈ fields, p.1 ≠ "component" ∧ p.2.asStr = none) :
    ∀ (hc : HeaderCtx),
      addHeadersLoop hc fields = Except.error "http header values must be strings" := by
  induction fields with
  | nil =>
      obtain ⟨p, hp, _⟩ := h
      cases hp
  | cons p rest ih =>
      intro hc
      obtain ⟨name, v⟩ := p
      by_cases hcmp : name = "component"
      · have hrest : ∃ q ∈ rest, q.1 ≠ "component" ∧ q.2.asStr = none := by
          obtain ⟨q, hq, hq2⟩ := h
          rcases List.mem_cons.mp hq with rfl | hq3
          · exact absurd hcmp hq2.1
          · exact ⟨q, hq3, hq2⟩
        simp only [addHeadersLoop, if_pos hcmp]
        exact ih hrest hc
      · cases hv : v.asStr with
        | none => simp only [addHeadersLoop, if_neg hcmp, hv]
        | some s =>
            have hrest : ∃ q ∈ rest, q.1 ≠ "component" ∧ q.2.asStr = none := by
              obtain ⟨q, hq, hq2⟩ := h
              rcases List.mem_cons.mp hq with rfl | hq3
              · rw [hv] at hq2
                cases hq2.2
              · exact ⟨q, hq3, hq2⟩
            simp only [addHeadersLoop, if_neg hcmp, hv]
            exact ih hrest _

/-- C5: in the header phase, a row with `component = http_header` inserts,
for every field other than `component` whose value is a JSON string, an HTTP
header named by the field key with the string value, and stays in the Header
state; if any such field has a non-string value the call fails with the
invalid-header-value error. -/
theorem header_http_header_row (hc : HeaderCtx) (data : Json)
    (fields : List (String × Json))
    (hobj : data.asObject = some fields)
    (hcomp : get_object_str data "component" = some "http_header") :
    ((∀ p ∈ fields, p.1 ≠ "component" → (p.2.asStr).isSome = true) →
        HeaderCtx.handle_row hc data =
          Except.ok (PageCtx.header
            { hc with response := applyHeaderEntries hc.response (headerEntries fields) }))
    ∧ ((∃ p ∈ fields, p.1 ≠ "component" ∧ p.2.asStr = none) →
        HeaderCtx.handle_row hc data =
          Except.error "http header values must be strings") := by
  constructor
  · intro hgood
    simp only [HeaderCtx.handle_row, hcomp, add_http_header, hobj,
      addHeadersLoop_ok fields hgood hc]
  · intro hbad
    simp only [HeaderCtx.handle_row, hcomp, add_http_header, hobj,
      addHeadersLoop_err fields hbad hc]

/-- Witness for C5: a concrete `http_header` row with one string header field
inserts that header and stays in the Header state. -/
theorem header_http_header_row_witness :
    (Json.obj [("component", Json.str "http_header"),
        ("X-Test", Json.str "v")]).asObject =
      some [("component", Json.str "http_header"), ("X-Test", Json.str "v")] ∧
    get_object_str (Json.obj [("component", Json.str "http_header"),
        ("X-Test", Json.str "v")]) "component" = some "http_header" ∧
    HeaderCtx.handle_row hcFix (Json.obj [("component", Json.str "http_header"),
        ("X-Test", Json.str "v")]) =
      Except.ok (PageCtx.header
        { hcFix with response := [("X-Test", "v")] }) :=
  ⟨rfl, rfl,
    (header_http_header_row hcFix
        (Json.obj [("component", Json.str "http_header"), ("X-Test", Json.str "v")])
        [("component", Json.str "http_header"), ("X-Test", Json.str "v")]
        rfl rfl).1 (by decide)⟩

/-- The fetch loop maps an error-free prefix through
`parse_single_sql_result`, yields the first database error as one
`DbItem.error` and drops everything after it. -/
theorem fetchLoop_first_error (rs : List SqlResult) (e : String)
    (rs2 : List SqlResult) (h : ∀ r ∈ rs, r.isFetchError = false) :
    fetchLoop (rs ++ SqlResult.fetchError e :: rs2) =
      rs.map parse_single_sql_result ++ [DbItem.error e] := by
  induction rs with
  | nil => rfl
  | cons r rest ih =>
      have hr : r.isFetchError = false := h r (List.mem_cons_self r rest)
      have hrest : ∀ q ∈ rest, q.isFetchError = false :=
        fun q hq => h q (List.mem_cons_of_mem r hq)
      cases r with
      | queryResult =>
          simp only [List.cons_append, fetchLoop, List.map_cons, List.append_eq]
          rw [ih hrest]
      | row d =>
          simp only [List.cons_append, fetchLoop, List.map_cons, List.append_eq]
          rw [ih hrest]
      | fetchError m => simp [SqlResult.isFetchError] at hr

/-- C10: the stream only ever surfaces failures as `DbItem.error` items.  A
database error while fetching a statement rows is yielded as one
`DbItem.error`, the remaining rows of that statement are dropped, and the
following statements are still processed; a parameter-binding error or a
connection-acquisition error terminates the generator, and the final `map`
turns that terminal error into one last `DbItem.error` ending the stream. -/
theorem stream_query_results_error_routing :
    (∀ (env : DbEnv) (conn : Bool) (rs : List SqlResult) (e : String)
        (rs2 : List SqlResult) (rest : List ParsedSQLStatement),
        (∀ r ∈ rs, r.isFetchError = false) →
        take_connection env conn = Except.ok true →
        try_stream_inner env conn
            (ParsedSQLStatement.statement (Except.ok ())
              (rs ++ SqlResult.fetchError e :: rs2) :: rest) =
          ((rs.map parse_single_sql_result ++ [DbItem.error e]) ++
              (try_stream_inner env true rest).1,
            (try_stream_inner env true rest).2))
    ∧ (∀ (env : DbEnv) (conn : Bool) (results : List SqlResult)
        (rest : List ParsedSQLStatement) (e : String),
        try_stream_inner env conn
            (ParsedSQLStatement.statement (Except.error e) results :: rest) =
          ([], some e))
    ∧ (∀ (env : DbEnv) (results : List SqlResult)
        (rest : List ParsedSQLStatement) (e : String),
        env.acquire = Except.error e →
        try_stream_inner env false
            (ParsedSQLStatement.statement (Except.ok ()) results :: rest) =
          ([], some (acquireFailMsg e)))
    ∧ (∀ (env : DbEnv) (stmts : List ParsedSQLStatement) (items : List DbItem)
        (e : String),
        try_stream_inner env false stmts = (items, some e) →
        stream_query_results env stmts = items ++ [DbItem.error e]) := by
  refine ⟨?_, ?_, ?_, ?_⟩
  · intro env conn rs e rs2 rest h hconn
    simp only [try_stream_inner, hconn, fetchLoop_first_error rs e rs2 h,
      List.append_assoc]
  · intro env conn results rest e
    rfl
  · intro env results rest e hacq
    simp only [try_stream_inner, take_connection, if_neg (Bool.false_ne_true), hacq]
  · intro env stmts items e h
    unfold stream_query_results
    rw [h]

/-- Witness for C10: a concrete statement whose second fetched element is a
database error yields the first row, then one error item, then continues with
the next statement. -/
theorem stream_query_results_error_routing_witness :
    (∀ r ∈ [SqlResult.row (Json.num 7)], r.isFetchError = false) ∧
    take_connection envOk false = Except.ok true ∧
    try_stream_inner envOk false
        (ParsedSQLStatement.statement (Except.ok ())
            ([SqlResult.row (Json.num 7)] ++
              SqlResult.fetchError "db boom" :: [SqlResult.row (Json.num 8)]) ::
          [ParsedSQLStatement.staticSimpleSelect (Json.num 9)]) =
      ([DbItem.row (Json.num 7), DbItem.error "db boom", DbItem.row (Json.num 9)],
        none) :=
  ⟨by decide, rfl,
    stream_query_results_error_routing.1 envOk false [SqlResult.row (Json.num 7)]
      "db boom" [SqlResult.row (Json.num 8)]
      [ParsedSQLStatement.staticSimpleSelect (Json.num 9)] (by decide) rfl⟩
